import Mathlib

/-!
# Verification of the osu-progress-site Score Classification & Goal-Progress Engine

Shallow embedding of the reconciliation engine of `src/app.py`
(`process_session_logic`, `calculate_effective_stars`) over Lean types:

* Python floats (star ratings, accuracies, ratings) are modelled as exact
  rationals (`Rat`); the constants `0.95`, `0.05` are the exact rationals the
  source writes.
* Python ints are `Nat` (combos, counts, ids) or `Int` (signed differences,
  beatmap ids), with Python `int(x)` truncation written out explicitly.
* Dictionary accesses are modelled field by field: a bracket access
  `score['k']` on a possibly-missing key is an `Option` forced through
  `Except` (a missing key raises, aborting the enclosing `try`), while
  `score.get('k', d)` is `Option.getD`.
* The database rows touched by the engine (`user_active_goals`,
  `score_history`, `user_mastery`, `goal_contributions`) are lists/records in
  an explicit `EngineState`; each SQL `UPDATE`/`INSERT` is a pure state
  transformation mirroring its `WHERE` clause.
-/

namespace OsuProgress

/-- `statistics` sub-dictionary of a play (`score.get('statistics', {})`);
all keys are read with `.get(_, 0)` in the source (app.py lines 639-642). -/
structure Statistics where
  miss_count : Option Nat
  count_100 : Option Nat
  count_50 : Option Nat
  count_300 : Option Nat
  deriving Repr, DecidableEq

/-- `score['beatmap']` sub-dictionary.  `difficulty_rating` is a bracket
access (app.py line 614); `max_combo`, `total_length`, `id` are `.get` with
default 0 (lines 629, 633, 634). -/
structure Beatmap where
  difficulty_rating : Option Rat
  max_combo : Option Nat
  total_length : Option Nat
  beatmap_id : Option Int
  deriving Repr, DecidableEq

/-- One raw play record from the recent-scores feed.  Fields read by bracket
access in the source are `Option`s that abort processing when `none`;
fields read with `.get` never abort. -/
structure RawPlay where
  score_id : Option Nat            -- score['id']            (line 604)
  beatmap : Option Beatmap         -- score['beatmap']       (line 612)
  beatmapset_title : Option String -- score['beatmapset']['title'] (lines 613, 799)
  accuracy : Option Rat            -- score['accuracy']      (line 615)
  mods : Option (List String)      -- score['mods']          (line 616)
  max_combo : Option Nat           -- score['max_combo']     (lines 630, 650, ...)
  rank : Option String             -- score['rank'] / score.get('rank', '')
  statistics : Option Statistics   -- score.get('statistics', {}) (line 638)
  created_at : Option String       -- score.get('created_at', '') (line 821)
  deriving Repr, DecidableEq

/-- The user-authored `criteria` JSONB of a goal; every key is optional and
read with the `.get` default shown in `process_session_logic`
(app.py lines 723-759, 791). -/
structure Criteria where
  goal_type : Option String        -- .get('type', 'count')
  min_stars : Option Rat           -- .get('min_stars', 0)
  mod : Option String              -- .get('mod', 'Any')
  mod_combination : Option String  -- .get('mod_combination', None)
  use_acc : Option Bool            -- .get('use_acc', False)
  acc_needed : Option Rat          -- .get('acc_needed', 0)
  beatmap_id : Option Int          -- .get('beatmap_id', None)
  use_length : Option Bool         -- .get('use_length', False)
  map_length : Option Int          -- .get('map_length', 0)
  use_combo : Option Bool          -- .get('use_combo', False)
  min_combo : Option Int           -- .get('min_combo', 0)
  streak : Option Bool             -- .get('streak', False)
  deriving Repr, DecidableEq

/-- One row of `user_active_goals` as the engine sees and mutates it.
`current` is `Option Nat` because `current_progress` may be SQL NULL
(treated as 0 at line 717). -/
structure GoalRow where
  gid : Nat
  current : Option Nat
  target : Nat
  criteria : Criteria
  is_paused : Bool
  is_completed : Bool
  completed_at : Option Nat
  deriving Repr, DecidableEq

/-- One tuple of the active-goal snapshot read once before the play loop
(`SELECT id, current_progress, target_progress, criteria, is_paused ...`,
app.py line 600). -/
structure SnapGoal where
  gid : Nat
  current : Option Nat
  target : Nat
  criteria : Criteria
  is_paused : Bool
  deriving Repr, DecidableEq

/-- Projection of a goal row onto the snapshot columns of line 600. -/
def toSnap (g : GoalRow) : SnapGoal :=
  { gid := g.gid, current := g.current, target := g.target,
    criteria := g.criteria, is_paused := g.is_paused }

/-- One row of `score_history` as inserted at app.py line 795-799.
`row_id` models the SERIAL primary key (position in insertion order). -/
structure HistoryRow where
  row_id : Nat
  osu_score_id : Nat
  beatmap_name : String
  mods : String
  mod_combination : String
  stars : Rat
  effective_stars : Rat
  accuracy : Rat
  is_fc : Bool
  is_pfc : Bool
  beatmap_id : Int
  map_length : Nat
  max_combo : Nat
  deriving Repr, DecidableEq

/-- One row of `goal_contributions` (app.py lines 804-808). -/
structure Contrib where
  goal_id : Nat
  score_history_id : Nat
  deriving Repr, DecidableEq

/-- The five columns of the user's `user_mastery` row. -/
structure Rating where
  nm : Rat
  hd : Rat
  hr : Rat
  dt : Rat
  fl : Rat
  deriving Repr, DecidableEq

/-- A feed entry of the JSON result (app.py lines 814-822). -/
structure FeedItem where
  title : String
  stars : Rat
  rank : String
  mods : String
  mod_combination : String
  is_fc : Bool
  timestamp : String
  deriving Repr, DecidableEq

/-- The persistent database state owned by one user that
`process_session_logic` reads and writes. -/
structure EngineState where
  history : List HistoryRow
  goals : List GoalRow
  rating : Rating
  contribs : List Contrib
  deriving Repr, DecidableEq

/-! ## Pure derivations per play -/

/-- Insert a string into an alphabetically sorted list (Python `sorted` on
strings is lexicographic). -/
def insortStr (s : String) : List String → List String
  | [] => [s]
  | t :: ts => if s ≤ t then s :: t :: ts else t :: insortStr s ts

/-- `sorted l` for a list of strings. -/
def sortStrs (l : List String) : List String := l.foldr insortStr []

/-- Canonical mod combination string (app.py lines 620-626):
filter out empty strings, sort alphabetically, concatenate; an empty result
(and the string-shaped degenerate cases of line 626) yields `"NM"`. -/
def modCombinationOf (raw_mods : List String) : String :=
  let mod_list := sortStrs (raw_mods.filter (fun m => m ≠ ""))
  let mc := if mod_list.isEmpty then "NM" else String.join mod_list
  if mc = "" ∨ mc = "[]" then "NM" else mc

/-- Dominant mod category (app.py lines 702-706): first match in the fixed
priority order DT/NC > HR > HD > FL > NM. -/
def modGroupOf (raw_mods : List String) : String :=
  if raw_mods.contains "DT" ∨ raw_mods.contains "NC" then "DT"
  else if raw_mods.contains "HR" then "HR"
  else if raw_mods.contains "HD" then "HD"
  else if raw_mods.contains "FL" then "FL"
  else "NM"

/-- Strict perfect-full-combo flag (app.py lines 648-650):
no misses, known map max combo, and achieved combo exactly equal to it. -/
def is_pfc_of (miss_count : Nat) (score_max_combo map_max_combo : Nat) : Bool :=
  miss_count == 0 && decide (0 < map_max_combo) && score_max_combo == map_max_combo

/-- Tolerant full-combo flag (app.py lines 672-700).
`int(map_max_combo * 0.03)` is embedded as the exact truncation
`(3 * map_max_combo) / 100`: the double `0.03` is slightly above 3/100 and
for every combo magnitude the float product truncates to the same integer. -/
def is_fc_of (score_rank : String) (miss_count : Nat)
    (score_max_combo map_max_combo : Nat) : Bool :=
  if score_rank == "F" then false
  else if 0 < miss_count then false
  else if 0 < map_max_combo then
    let combo_diff : Int := (map_max_combo : Int) - (score_max_combo : Int)
    if combo_diff == 0 then true
    else
      let percentage_threshold : Int := ((3 * map_max_combo) / 100 : Nat)
      let threshold : Int := min percentage_threshold 30
      decide (combo_diff ≤ threshold)
  else false

/-- `calculate_effective_stars` (app.py lines 142-147). -/
def calculate_effective_stars (stars acc : Rat) (max_combo map_max_combo : Nat) : Rat :=
  let combo_ratio : Rat :=
    if 0 < map_max_combo then (max_combo : Rat) / (map_max_combo : Rat) else 1
  stars * acc ^ 3 * combo_ratio

/-- The exponential-moving-average rating update (app.py lines 810-811):
the column named `{mod_group.lower()}_rating` becomes
`old * 0.95 + eff_stars * 0.05`.  `modGroupOf` only ever produces the five
column names, so the dispatch below is total; any other string would be a
SQL error in the source and never occurs in the loop. -/
def updateRating (mod_group : String) (eff_stars : Rat) (r : Rating) : Rating :=
  if mod_group == "NM" then { r with nm := r.nm * 0.95 + eff_stars * 0.05 }
  else if mod_group == "HD" then { r with hd := r.hd * 0.95 + eff_stars * 0.05 }
  else if mod_group == "HR" then { r with hr := r.hr * 0.95 + eff_stars * 0.05 }
  else if mod_group == "DT" then { r with dt := r.dt * 0.95 + eff_stars * 0.05 }
  else if mod_group == "FL" then { r with fl := r.fl * 0.95 + eff_stars * 0.05 }
  else r

/-! ## Goal matcher: criteria filters (app.py lines 721-756) -/

/-- Derived per-play values the goal matcher consumes. -/
structure PlayDerived where
  stars : Rat
  mod_combination : String
  mod_group : String
  beatmap_id : Int
  map_length : Nat
  score_max_combo : Nat
  acc : Rat
  is_fc : Bool
  deriving Repr, DecidableEq

/-- Star filter (lines 723-724): skip when `min_stars > 0 and stars < min_stars`. -/
def starCheck (c : Criteria) (stars : Rat) : Bool :=
  let min_stars_req := c.min_stars.getD 0
  !(decide (0 < min_stars_req) && decide (stars < min_stars_req))

/-- Mod filter (lines 726-736): an exact (truthy, non-"Any") mod-combination
requirement takes priority; otherwise a truthy non-"Any" single-mod
requirement must equal the dominant category. -/
def modCheck (c : Criteria) (mod_combination mod_group : String) : Bool :=
  let req_mod := c.mod.getD "Any"
  let singleCheck : Bool :=
    if req_mod != "Any" && req_mod != "" then req_mod == mod_group else true
  match c.mod_combination with
  | some s => if s != "" && s != "Any" then mod_combination == s else singleCheck
  | none => singleCheck

/-- Target-beatmap filter (lines 738-741). -/
def beatmapCheck (c : Criteria) (beatmap_id : Int) : Bool :=
  match c.beatmap_id with
  | some req => beatmap_id == req
  | none => true

/-- Map-length filter (lines 743-746): skip when enabled and `map_length < req`. -/
def lengthCheck (c : Criteria) (map_length : Nat) : Bool :=
  if c.use_length.getD false then
    !(decide ((map_length : Int) < c.map_length.getD 0))
  else true

/-- Minimum-combo filter (lines 748-751). -/
def comboCheck (c : Criteria) (score_max_combo : Nat) : Bool :=
  if c.use_combo.getD false then
    !(decide ((score_max_combo : Int) < c.min_combo.getD 0))
  else true

/-- Accuracy filter (lines 753-756): accuracy as a percentage must reach
`acc_needed`. -/
def accCheck (c : Criteria) (acc : Rat) : Bool :=
  if c.use_acc.getD false then !(decide (acc * 100 < c.acc_needed.getD 0)) else true

/-- Conjunction of the criteria filters; each failing filter `continue`s in
the source, so the goal matches the filter block iff all checks pass. -/
def criteriaPass (c : Criteria) (pd : PlayDerived) : Bool :=
  starCheck c pd.stars && modCheck c pd.mod_combination pd.mod_group &&
  beatmapCheck c pd.beatmap_id && lengthCheck c pd.map_length &&
  comboCheck c pd.score_max_combo && accCheck c pd.acc

/-- Objective predicate (app.py lines 759-770).  The `'pass'` and `'ss'`
objectives read `score['rank']` by bracket access, which raises when the key
is missing — hence the `Except`. -/
def objectiveSuccess (c : Criteria) (rank_of_score : Option String) (is_fc : Bool) :
    Except String Bool :=
  let req_type := c.goal_type.getD "count"
  if req_type == "pass" then
    match rank_of_score with
    | none => Except.error "KeyError: rank"
    | some r => Except.ok (r != "F")
  else if req_type == "fc" then Except.ok is_fc
  else if req_type == "ss" then
    match rank_of_score with
    | none => Except.error "KeyError: rank"
    | some r => Except.ok (r == "X" || r == "XH")
  else if req_type == "count" then Except.ok true
  else Except.ok false

/-! ## Goal progress reducer (app.py lines 772-792) -/

/-- Effect of the goal-progress SQL updates on one `user_active_goals` row,
given the objective verdict `success` computed from the snapshot values
`g_current` (NULL already defaulted to 0) and `g_target`:

* success: `new_prog = g_current + 1`; if `new_prog >= g_target` the first
  UPDATE (lines 777-781) also sets `is_completed` and stamps
  `completed_at = now`, but only `WHERE completed_at IS NULL`; when the row
  was already stamped (`rowcount == 0`) the fallback (line 784) writes only
  `current_progress`.  Below target, line 786 writes progress and the
  (false) completed flag.
* no success: a streak goal resets `current_progress` to 0 (line 792);
  otherwise no statement runs. -/
def stepGoalRow (success streak : Bool) (g_current g_target now : Nat)
    (row : GoalRow) : GoalRow :=
  if success then
    let new_prog := g_current + 1
    let completed : Bool := decide (g_target ≤ new_prog)
    if completed then
      match row.completed_at with
      | none => { row with current := some new_prog, is_completed := completed,
                           completed_at := some now }
      | some _ => { row with current := some new_prog }
    else
      { row with current := some new_prog, is_completed := completed }
  else
    if streak then { row with current := some 0 } else row

/-- `UPDATE user_active_goals ... WHERE id = gid` on the in-model table. -/
def updateGoalById (gs : List GoalRow) (gid : Nat) (f : GoalRow → GoalRow) :
    List GoalRow :=
  gs.map (fun r => if r.gid == gid then f r else r)

/-- The `for goal in active_goals` loop body (app.py lines 714-792) over the
remaining snapshot entries.  `gs` is the live `user_active_goals` table,
`cs` the goal ids accumulated in `goal_contributions_for_score`. -/
def goalLoop (pd : PlayDerived) (rank_of_score : Option String) (now : Nat) :
    List SnapGoal → List GoalRow → List Nat → Except String (List GoalRow × List Nat)
  | [], gs, cs => Except.ok (gs, cs)
  | sg :: rest, gs, cs =>
    let g_current := sg.current.getD 0
    if sg.is_paused then goalLoop pd rank_of_score now rest gs cs
    else if criteriaPass sg.criteria pd then
      match objectiveSuccess sg.criteria rank_of_score pd.is_fc with
      | Except.error e => Except.error e
      | Except.ok success =>
        if success then
          goalLoop pd rank_of_score now rest
            (updateGoalById gs sg.gid
              (stepGoalRow true (sg.criteria.streak.getD false) g_current sg.target now))
            (cs ++ [sg.gid])
        else if sg.criteria.streak.getD false then
          goalLoop pd rank_of_score now rest
            (updateGoalById gs sg.gid
              (stepGoalRow false true g_current sg.target now))
            cs
        else goalLoop pd rank_of_score now rest gs cs
    else goalLoop pd rank_of_score now rest gs cs

/-! ## Per-play extraction and commit (app.py lines 603-822) -/

/-- The play fields and `.get` defaults computed before the goal loop,
in the source's access order (lines 612-642); any missing bracket-accessed
key raises, aborting the whole invocation. -/
structure ExtractedPlay where
  title : String
  stars : Rat
  acc : Rat
  raw_mods : List String
  score_max_combo : Nat
  map_max_combo_raw : Nat
  total_length : Nat
  play_beatmap_id : Int
  score_rank : String
  miss_count : Nat
  created_at : String
  deriving Repr, DecidableEq

/-- Reads the required fields of a play record (bracket accesses of app.py
lines 612-616 and 630) and the defaulted ones (lines 629, 633-642, 821). -/
def extractPlay (sc : RawPlay) : Except String ExtractedPlay :=
  match sc.beatmap with
  | none => Except.error "KeyError: beatmap"
  | some beatmap =>
    match sc.beatmapset_title with
    | none => Except.error "KeyError: beatmapset"
    | some title =>
      match beatmap.difficulty_rating with
      | none => Except.error "KeyError: difficulty_rating"
      | some stars =>
        match sc.accuracy with
        | none => Except.error "KeyError: accuracy"
        | some acc =>
          match sc.mods with
          | none => Except.error "KeyError: mods"
          | some raw_mods =>
            match sc.max_combo with
            | none => Except.error "KeyError: max_combo"
            | some score_max_combo =>
              Except.ok
                { title := title, stars := stars, acc := acc, raw_mods := raw_mods,
                  score_max_combo := score_max_combo,
                  map_max_combo_raw := beatmap.max_combo.getD 0,
                  total_length := beatmap.total_length.getD 0,
                  play_beatmap_id := beatmap.beatmap_id.getD 0,
                  score_rank := sc.rank.getD "",
                  miss_count :=
                    ((sc.statistics.getD ⟨none, none, none, none⟩).miss_count).getD 0,
                  created_at := sc.created_at.getD "" }

/-- `map_max_combo` after the fallback of app.py line 630: an unknown (0)
map max combo is replaced by the achieved combo. -/
def mapMaxOf (p : ExtractedPlay) : Nat :=
  if p.map_max_combo_raw == 0 then p.score_max_combo else p.map_max_combo_raw

/-- Effective stars of a play (app.py line 708). -/
def effOf (p : ExtractedPlay) : Rat :=
  calculate_effective_stars p.stars p.acc p.score_max_combo (mapMaxOf p)

/-- The derived values handed to the goal loop. -/
def pdOf (p : ExtractedPlay) : PlayDerived :=
  { stars := p.stars,
    mod_combination := modCombinationOf p.raw_mods,
    mod_group := modGroupOf p.raw_mods,
    beatmap_id := p.play_beatmap_id,
    map_length := p.total_length,
    score_max_combo := p.score_max_combo,
    acc := p.acc,
    is_fc := is_fc_of p.score_rank p.miss_count p.score_max_combo (mapMaxOf p) }

/-- Mutable state carried through the `for score in reversed(recent_scores)`
loop: the user's tables plus the accumulated feed items and the
`updates_made` flag. -/
structure LoopState where
  history : List HistoryRow
  goals : List GoalRow
  rating : Rating
  contribs : List Contrib
  feed : List FeedItem
  updated : Bool
  deriving Repr, DecidableEq

/-- Rounding of app.py's `round(x, 2)` for display fields, in exact rational
arithmetic (Python's banker's rounding differs only at exact half-cent
ties, which no claim exercises). -/
def round2 (q : Rat) : Rat := (round (q * 100) : Int) / 100

/-- All writes performed for one newly processed play (app.py lines 794-822):
the `score_history` insert, the `goal_contributions` inserts, the rating
EMA update, and the feed append. -/
def commitPlay (ls : LoopState) (osu_score_id : Nat) (p : ExtractedPlay)
    (gs : List GoalRow) (contribIds : List Nat) (rank_val : String) : LoopState :=
  let row_id := ls.history.length
  let hrow : HistoryRow :=
    { row_id := row_id, osu_score_id := osu_score_id, beatmap_name := p.title,
      mods := modGroupOf p.raw_mods, mod_combination := modCombinationOf p.raw_mods,
      stars := p.stars, effective_stars := effOf p, accuracy := p.acc,
      is_fc := (pdOf p).is_fc,
      is_pfc := is_pfc_of p.miss_count p.score_max_combo (mapMaxOf p),
      beatmap_id := p.play_beatmap_id, map_length := p.total_length,
      max_combo := p.score_max_combo }
  { history := ls.history ++ [hrow],
    goals := gs,
    rating := updateRating (modGroupOf p.raw_mods) (effOf p) ls.rating,
    contribs := ls.contribs ++
      contribIds.map (fun g => { goal_id := g, score_history_id := row_id }),
    feed := ls.feed ++
      [{ title := p.title, stars := round2 p.stars, rank := rank_val,
         mods := modGroupOf p.raw_mods, mod_combination := modCombinationOf p.raw_mods,
         is_fc := (pdOf p).is_fc, timestamp := p.created_at }],
    updated := true }

/-- One iteration of the play loop (app.py lines 603-822): read the external
score id, skip plays already recorded in `score_history` (line 607-608),
otherwise extract, classify, run the goal loop, and commit.  The feed item
reads `score['rank']` by bracket access (line 817). -/
def processScore (snapshot : List SnapGoal) (now : Nat) (ls : LoopState)
    (sc : RawPlay) : Except String LoopState :=
  match sc.score_id with
  | none => Except.error "KeyError: id"
  | some osu_score_id =>
    if ls.history.any (fun h => h.osu_score_id == osu_score_id) then Except.ok ls
    else
      match extractPlay sc with
      | Except.error e => Except.error e
      | Except.ok p =>
        match goalLoop (pdOf p) sc.rank now snapshot ls.goals [] with
        | Except.error e => Except.error e
        | Except.ok (gs, contribIds) =>
          match sc.rank with
          | none => Except.error "KeyError: rank"
          | some rank_val =>
            Except.ok (commitPlay ls osu_score_id p gs contribIds rank_val)

/-- The play loop over the (already reversed) batch. -/
def runLoop (snapshot : List SnapGoal) (now : Nat) :
    LoopState → List RawPlay → Except String LoopState
  | ls, [] => Except.ok ls
  | ls, sc :: rest =>
    match processScore snapshot now ls sc with
    | Except.error e => Except.error e
    | Except.ok ls' => runLoop snapshot now ls' rest

/-- One `{id, current, target}` entry of the `goals` array in the JSON
result (app.py line 832). -/
structure GoalSnapshotOut where
  gid : Nat
  current : Nat
  target : Nat
  deriving Repr, DecidableEq

/-- One entry of the `persistent_feed` array (app.py lines 845-852). -/
structure PersistentFeedItem where
  title : String
  mod_combination : String
  stars : Rat
  is_fc : Bool
  deriving Repr, DecidableEq

/-- The JSON payload returned by `process_session_logic` (lines 858-866 on
success, line 870 on error; an error payload carries no `updated`, `feed`,
... keys, modelled by the neutral values below). -/
structure ReconcileResult where
  status : String
  message : String
  updated : Bool
  feed : List FeedItem
  stats : List Rat
  goal_states : List GoalSnapshotOut
  fc_counts : Int → Nat
  persistent_feed : List PersistentFeedItem

/-- The FC-per-integer-star histogram (app.py line 834):
`SELECT FLOOR(stars), COUNT(*) ... WHERE is_fc = TRUE GROUP BY star_int`. -/
def fcCounts (hist : List HistoryRow) : Int → Nat := fun b =>
  (hist.filter (fun h => h.is_fc && (⌊h.stars⌋ == b))).length

/-- The last-100-scores feed (app.py lines 838-852); rows of one commit share
a timestamp, modelled by reverse insertion order. -/
def persistentFeedOf (hist : List HistoryRow) : List PersistentFeedItem :=
  (hist.reverse.take 100).map (fun h =>
    { title := h.beatmap_name,
      mod_combination := if h.mod_combination == "" then "NM" else h.mod_combination,
      stars := round2 h.stars, is_fc := h.is_fc })

/-- The active-goal snapshot read once at app.py line 600:
`WHERE user_id = %s AND is_completed = FALSE`. -/
def snapshotOf (st : EngineState) : List SnapGoal :=
  (st.goals.filter (fun g => !g.is_completed)).map toSnap

/-- The loop state at entry: the user's current tables, an empty feed, and
`updates_made = False` (app.py lines 594-595). -/
def initLS (st : EngineState) : LoopState :=
  { history := st.history, goals := st.goals, rating := st.rating,
    contribs := st.contribs, feed := [], updated := false }

/-- `process_session_logic` from the successful fetch of `recent_scores`
onwards (app.py lines 593-870): read the active-goal snapshot, process the
batch oldest-first (`reversed(recent_scores)`), and either commit all
writes and report the rich payload, or — when any play raised — roll back
(the connection is dropped without `conn.commit()`) and report an error. -/
def reconcile (recent_scores : List RawPlay) (st : EngineState) (now : Nat) :
    ReconcileResult × EngineState :=
  match runLoop (snapshotOf st) now (initLS st) recent_scores.reverse with
  | Except.error e =>
    ({ status := "error", message := e, updated := false, feed := [], stats := [],
       goal_states := [], fc_counts := fun _ => 0, persistent_feed := [] }, st)
  | Except.ok ls =>
    ({ status := "success", message := "", updated := ls.updated, feed := ls.feed,
       stats := [ls.rating.nm, ls.rating.hd, ls.rating.hr, ls.rating.dt, ls.rating.fl],
       goal_states := (ls.goals.filter (fun g => !g.is_completed)).map
         (fun g => { gid := g.gid, current := g.current.getD 0, target := g.target }),
       fc_counts := fcCounts ls.history,
       persistent_feed := persistentFeedOf ls.history },
     { history := ls.history, goals := ls.goals, rating := ls.rating,
       contribs := ls.contribs })

/-! ## Relations describing how the loop can move one goal row -/

/-- One in-loop mutation that the play loop can apply to the goal row with
id `G`: some non-paused snapshot entry for `G` drives `stepGoalRow` with
its snapshot progress, target and streak flag (the in-memory `g_current`
of app.py line 715 is never refreshed, so every step reuses the snapshot
value). -/
def rowStep (snapshot : List SnapGoal) (now G : Nat) (r r' : GoalRow) : Prop :=
  ∃ sg ∈ snapshot, sg.is_paused = false ∧ sg.gid = G ∧
    ∃ v : Bool, r' = stepGoalRow v (sg.criteria.streak.getD false)
      (sg.current.getD 0) sg.target now r

/-- `r` is a row the play loop can have produced from the initial row `r0`. -/
def evolvedFrom (snapshot : List SnapGoal) (now : Nat) (r0 r : GoalRow) : Prop :=
  r.gid = r0.gid ∧ Relation.ReflTransGen (rowStep snapshot now r0.gid) r0 r

/-! ## Concrete inputs used by witnesses and counterexamples -/

/-- A criteria record with every key absent (all `.get` defaults apply). -/
def emptyCriteria : Criteria :=
  { goal_type := none, min_stars := none, mod := none, mod_combination := none,
    use_acc := none, acc_needed := none, beatmap_id := none, use_length := none,
    map_length := none, use_combo := none, min_combo := none, streak := none }

/-- A concrete fully-formed play: NM mods, perfect accuracy, 500 of 500
combo, rank S, on a 6-star, 120-second map. -/
def wPlay : RawPlay :=
  { score_id := some 11,
    beatmap := some ⟨some 6, some 500, some 120, some 77⟩,
    beatmapset_title := some "M", accuracy := some 1, mods := some [],
    max_combo := some 500, rank := some "S",
    statistics := some ⟨some 0, some 0, some 0, some 0⟩,
    created_at := some "t" }

/-- An empty loop state (no history, goals, contributions; zero ratings). -/
def wLS : LoopState :=
  { history := [], goals := [], rating := ⟨0, 0, 0, 0, 0⟩, contribs := [],
    feed := [], updated := false }

/-- The extracted fields of `wPlay`. -/
def wP : ExtractedPlay :=
  { title := "M", stars := 6, acc := 1, raw_mods := [], score_max_combo := 500,
    map_max_combo_raw := 500, total_length := 120, play_beatmap_id := 77,
    score_rank := "S", miss_count := 0, created_at := "t" }

/-- The loop state after processing `wPlay`. -/
def wOut : LoopState :=
  match processScore [] 0 wLS wPlay with
  | Except.ok l => l
  | Except.error _ => wLS

/-- A count goal at progress 1 of 3 with no filters. -/
def w3goal : GoalRow :=
  { gid := 1, current := some 1, target := 3,
    criteria := { emptyCriteria with goal_type := some "count" },
    is_paused := false, is_completed := false, completed_at := none }

/-- A state holding only `w3goal`. -/
def w3st : EngineState :=
  { history := [], goals := [w3goal], rating := ⟨0, 0, 0, 0, 0⟩, contribs := [] }

/-- A concrete play batch for the snapshot-bound witness. -/
def w3batch : List RawPlay :=
  [{ score_id := some 31,
     beatmap := some ⟨some 4, some 200, some 90, some 5⟩,
     beatmapset_title := some "A", accuracy := some (9 / 10), mods := some [],
     max_combo := some 200, rank := some "S",
     statistics := some ⟨some 0, none, none, none⟩, created_at := some "c" }]

/-- A state with one open count goal, used by the idempotence witness. -/
def w5st : EngineState :=
  { history := [],
    goals := [{ gid := 2, current := some 0, target := 2,
                criteria := { emptyCriteria with goal_type := some "count" },
                is_paused := false, is_completed := false, completed_at := none }],
    rating := ⟨0, 0, 0, 0, 0⟩, contribs := [] }

/-- A one-play batch for the idempotence witness. -/
def w5batch : List RawPlay :=
  [{ score_id := some 51,
     beatmap := some ⟨some 5, some 300, some 100, some 9⟩,
     beatmapset_title := some "B", accuracy := some (97 / 100), mods := some ["HD"],
     max_combo := some 299, rank := some "A",
     statistics := some ⟨some 0, none, none, none⟩, created_at := some "d" }]

/-- A well-formed play record. -/
def w6good : RawPlay :=
  { score_id := some 61,
    beatmap := some ⟨some 3, some 400, some 80, some 12⟩,
    beatmapset_title := some "G", accuracy := some 1, mods := some [],
    max_combo := some 400, rank := some "S",
    statistics := some ⟨some 0, none, none, none⟩, created_at := some "e" }

/-- A malformed play record: the required `beatmap` field is missing. -/
def w6bad : RawPlay :=
  { score_id := some 62, beatmap := none, beatmapset_title := some "H",
    accuracy := some 1, mods := some [], max_combo := some 100,
    rank := some "S", statistics := some ⟨some 0, none, none, none⟩,
    created_at := some "f" }

/-- An empty engine state for the malformed-record theorem. -/
def w6st : EngineState :=
  { history := [], goals := [], rating := ⟨0, 0, 0, 0, 0⟩, contribs := [] }

/-- A paused streak goal at progress 2. -/
def w7goal : GoalRow :=
  { gid := 7, current := some 2, target := 5,
    criteria := { emptyCriteria with goal_type := some "fc", streak := some true },
    is_paused := true, is_completed := false, completed_at := none }

/-- A state holding only the paused goal `w7goal`. -/
def w7st : EngineState :=
  { history := [], goals := [w7goal], rating := ⟨0, 0, 0, 0, 0⟩, contribs := [] }

/-- A one-play batch (the play does not full-combo, so an unpaused streak
goal would have been reset). -/
def w7batch : List RawPlay :=
  [{ score_id := some 71,
     beatmap := some ⟨some 4, some 500, some 95, some 8⟩,
     beatmapset_title := some "P", accuracy := some (9 / 10), mods := some [],
     max_combo := some 100, rank := some "B",
     statistics := some ⟨some 0, none, none, none⟩, created_at := some "g" }]

/-- Modelled from the claim under scrutiny (refinement comparison only, not
from the source): the tolerant classifier cascade but with the threshold
computed by arithmetic rounding of `map_max_combo * 0.03` — `round(x)` as
`floor(x + 1/2)` — which is how the spec sentence writes it. -/
def fcSpecRounded (score_rank : String) (miss_count : Nat)
    (score_max_combo map_max_combo : Nat) : Bool :=
  if score_rank == "F" then false
  else if 0 < miss_count then false
  else if map_max_combo == 0 then false
  else if map_max_combo - score_max_combo == 0 then true
  else decide ((map_max_combo : Int) - (score_max_combo : Int) ≤
        min (((3 * map_max_combo + 50) / 100 : Nat) : Int) 30)

/-! ## Claim C2: tolerant full-combo classifier -/

/-- Claim C2, counterexample: the classifier in the code truncates
`map_max_combo * 0.03` (Python `int`), it does not round it.  At
map_max_combo = 850, achieved = 824 (diff 26) the claim's threshold is
min(round(25.5), 30) = 26, predicting full-combo, but the code's threshold
is min(25, 30) = 25, so the code says NOT full-combo. -/
theorem fc_rounding_counterexample :
    fcSpecRounded "S" 0 824 850 = true ∧ is_fc_of "S" 0 824 850 = false := by
  decide

/-- Claim C2 (amended): the tolerant full-combo verdict is true iff the rank
is not 'F', there are no misses, the map max combo is known (> 0), and the
combo deficit map_max_combo - achieved is at most
min(trunc(map_max_combo * 0.03), 30); the diff == 0 fast path is subsumed
since the threshold is never negative. -/
theorem fc_tolerant_decision (r : String) (miss sc mc : Nat) :
    is_fc_of r miss sc mc = true ↔
      r ≠ "F" ∧ miss = 0 ∧ 0 < mc ∧
        (mc : Int) - (sc : Int) ≤ min (((3 * mc) / 100 : Nat) : Int) 30 := by
  unfold is_fc_of
  rcases eq_or_ne r "F" with hr | hr
  · subst hr; simp
  · rw [if_neg (by simpa using hr)]
    rcases Nat.eq_zero_or_pos miss with hm | hm
    · subst hm
      rw [if_neg (by omega)]
      rcases Nat.eq_zero_or_pos mc with hc | hc
      · subst hc; simp
      · rw [if_pos hc]
        by_cases hd : ((mc : Int) - (sc : Int)) = 0
        · rw [if_pos (by simpa using hd)]
          constructor
          · intro _
            refine ⟨hr, rfl, hc, ?_⟩
            rw [hd]
            exact le_min (Int.ofNat_nonneg _) (by norm_num)
          · intro _
            rfl
        · rw [if_neg (by simpa using hd)]
          simp only [decide_eq_true_eq]
          constructor
          · intro h
            exact ⟨hr, by trivial, hc, h⟩
          · rintro ⟨-, -, -, h⟩
            exact h
    · rw [if_pos hm]
      constructor
      · intro h
        exact (Bool.false_ne_true h).elim
      · rintro ⟨-, hm0, -, -⟩
        exact absurd hm0 (by omega)

/-! ## Claim C4: strict versus tolerant combo flags -/

/-- Claim C4, counterexample: achieved == map_max_combo does NOT always make
both flags true.  A failed play (rank 'F') with no misses and achieved 100
of 100 has the strict flag true (it ignores rank) but the tolerant flag
false (rule 1 rejects 'F' first). -/
theorem strict_vs_tolerant_counterexample :
    is_pfc_of 0 100 100 = true ∧ is_fc_of "F" 0 100 100 = false := by
  decide

/-- Claim C4 (amended): for a non-failed play with no misses on a map of
known max combo, achieved == map max yields both the strict and the
tolerant flag true, and achieved within the code's tolerance threshold but
not equal yields tolerant true and strict false. -/
theorem strict_vs_tolerant (r : String) (miss sc mc : Nat)
    (hr : r ≠ "F") (hm : miss = 0) (hc : 0 < mc) :
    (sc = mc → is_pfc_of miss sc mc = true ∧ is_fc_of r miss sc mc = true) ∧
    (sc ≠ mc → (mc : Int) - (sc : Int) ≤ min (((3 * mc) / 100 : Nat) : Int) 30 →
      is_fc_of r miss sc mc = true ∧ is_pfc_of miss sc mc = false) := by
  constructor
  · intro he
    constructor
    · unfold is_pfc_of
      subst hm
      subst he
      simp [hc]
    · rw [fc_tolerant_decision]
      refine ⟨hr, hm, hc, ?_⟩
      subst he
      rw [sub_self]
      exact le_min (Int.ofNat_nonneg _) (by norm_num)
  · intro hne hle
    constructor
    · rw [fc_tolerant_decision]
      exact ⟨hr, hm, hc, hle⟩
    · unfold is_pfc_of
      simp [hne]

/-- Witness for `strict_vs_tolerant` at the spec's own test vector
1130 of 1159 (diff 29, threshold 30). -/
theorem strict_vs_tolerant_witness :
    is_fc_of "S" 0 1130 1159 = true ∧ is_pfc_of 0 1130 1159 = false :=
  (strict_vs_tolerant "S" 0 1130 1159 (by decide) rfl (by decide)).2
    (by decide) (by decide)

/-! ## Claim C8: dominant mod category -/

/-- Claim C8: the dominant category is the first match in the fixed priority
order DT-family (DT or NC) > HR > HD > FL > NM, with the spec's examples. -/
theorem mod_group_priority (mods : List String) :
    ("DT" ∈ mods ∨ "NC" ∈ mods → modGroupOf mods = "DT") ∧
    ("DT" ∉ mods → "NC" ∉ mods → "HR" ∈ mods → modGroupOf mods = "HR") ∧
    ("DT" ∉ mods → "NC" ∉ mods → "HR" ∉ mods → "HD" ∈ mods →
      modGroupOf mods = "HD") ∧
    ("DT" ∉ mods → "NC" ∉ mods → "HR" ∉ mods → "HD" ∉ mods → "FL" ∈ mods →
      modGroupOf mods = "FL") ∧
    ("DT" ∉ mods → "NC" ∉ mods → "HR" ∉ mods → "HD" ∉ mods → "FL" ∉ mods →
      modGroupOf mods = "NM") ∧
    modGroupOf ["HR", "DT"] = "DT" ∧ modGroupOf ["NC"] = "DT" ∧
    modGroupOf ["HD"] = "HD" ∧ modGroupOf [] = "NM" := by
  unfold modGroupOf
  refine ⟨?_, ?_, ?_, ?_, ?_, by decide, by decide, by decide, by decide⟩
  · intro h
    simp [h]
  · intro h1 h2 h3
    simp [h1, h2, h3]
  · intro h1 h2 h3 h4
    simp [h1, h2, h3, h4]
  · intro h1 h2 h3 h4 h5
    simp [h1, h2, h3, h4, h5]
  · intro h1 h2 h3 h4 h5
    simp [h1, h2, h3, h4, h5]

/-- Witness for `mod_group_priority`: a play with both HR and DT is
categorized DT. -/
theorem mod_group_priority_witness : modGroupOf ["HR", "DT"] = "DT" :=
  (mod_group_priority ["HR", "DT"]).1 (Or.inl (by decide))

/-! ## Claim C9: effective difficulty -/

/-- Claim C9: effective difficulty is stars * accuracy^3 * combo_ratio with
combo_ratio = achieved/map_max when map_max > 0 and 1.0 otherwise,
including the spec's two example evaluations. -/
theorem effective_difficulty_formula (stars acc : Rat) (sc mc : Nat) :
    (0 < mc → calculate_effective_stars stars acc sc mc =
        stars * acc ^ 3 * ((sc : Rat) / (mc : Rat))) ∧
    (mc = 0 → calculate_effective_stars stars acc sc mc = stars * acc ^ 3) ∧
    calculate_effective_stars 5 1 1000 1000 = 5 ∧
    calculate_effective_stars 5 (95 / 100) 1000 1000 = 5 * (95 / 100) ^ 3 := by
  refine ⟨fun h => ?_, fun h => ?_, by norm_num [calculate_effective_stars],
    by norm_num [calculate_effective_stars]⟩
  · unfold calculate_effective_stars
    rw [if_pos h]
  · unfold calculate_effective_stars
    subst h
    simp

/-- Witness for `effective_difficulty_formula` at the spec's example. -/
theorem effective_difficulty_formula_witness :
    calculate_effective_stars 5 1 1000 1000 = 5 * 1 ^ 3 * ((1000 : Rat) / 1000) :=
  (effective_difficulty_formula 5 1 1000 1000).1 (by decide)

/-! ## Claim C1: goal progress reducer transition -/

/-- Claim C1: on a match the reducer writes progress snapshot+1; reaching the
target on a not-yet-stamped row sets the completed flag and stamps the
completion time; an already stamped row is never re-stamped; a second match
transition changes nothing further (no re-stamp, no re-increment); on a
non-match a streak goal resets to 0 and a non-streak goal's row is
untouched. -/
theorem goal_progress_reducer (streak : Bool) (cur target now : Nat) (row : GoalRow) :
    ((stepGoalRow true streak cur target now row).current = some (cur + 1)) ∧
    (target ≤ cur + 1 → row.completed_at = none →
      (stepGoalRow true streak cur target now row).is_completed = true ∧
      (stepGoalRow true streak cur target now row).completed_at = some now) ∧
    (∀ t, row.completed_at = some t →
      (stepGoalRow true streak cur target now row).completed_at = some t) ∧
    (∀ now', stepGoalRow true streak cur target now'
        (stepGoalRow true streak cur target now row) =
      stepGoalRow true streak cur target now row) ∧
    (stepGoalRow false true cur target now row = { row with current := some 0 }) ∧
    (stepGoalRow false false cur target now row = row) := by
  obtain ⟨gid, current, tgt, crit, pz, ic, ca⟩ := row
  unfold stepGoalRow
  by_cases h : target ≤ cur + 1
  · cases ca <;> simp [h]
  · cases ca <;> simp [h]

/-- Witness for `goal_progress_reducer`: the spec's 4→5-of-5 completion
transition stamps the flag and the time. -/
theorem goal_progress_reducer_witness :
    (stepGoalRow true false 4 5 7
        { gid := 1, current := some 4, target := 5,
          criteria := ⟨none, none, none, none, none, none, none, none, none,
            none, none, none⟩,
          is_paused := false, is_completed := false,
          completed_at := none }).is_completed = true ∧
    (stepGoalRow true false 4 5 7
        { gid := 1, current := some 4, target := 5,
          criteria := ⟨none, none, none, none, none, none, none, none, none,
            none, none, none⟩,
          is_paused := false, is_completed := false,
          completed_at := none }).completed_at = some 7 :=
  (goal_progress_reducer false 4 5 7 _).2.1 (by decide) rfl

/-! ## Claim C10: rating EMA update -/

/-- Claim C10: each newly processed play updates exactly the bucket of its
dominant mod category to old * 0.95 + effective * 0.05 (leaving the other
four fields unchanged — the record updates below touch one field each);
old = 10 with effective = 20 gives 10.5; and the update is applied to every
newly processed play unconditionally (for any goal snapshot and any goal
outcomes, the committed rating is exactly the EMA update of the previous
rating). -/
theorem rating_ema_update :
    (∀ (r : Rating) (eff : Rat),
      updateRating "NM" eff r = { r with nm := r.nm * 0.95 + eff * 0.05 } ∧
      updateRating "HD" eff r = { r with hd := r.hd * 0.95 + eff * 0.05 } ∧
      updateRating "HR" eff r = { r with hr := r.hr * 0.95 + eff * 0.05 } ∧
      updateRating "DT" eff r = { r with dt := r.dt * 0.95 + eff * 0.05 } ∧
      updateRating "FL" eff r = { r with fl := r.fl * 0.95 + eff * 0.05 }) ∧
    (updateRating "NM" 20 { nm := 10, hd := 0, hr := 0, dt := 0, fl := 0 }).nm
      = 10.5 ∧
    (∀ (snapshot : List SnapGoal) (now : Nat) (ls : LoopState) (sc : RawPlay)
       (ls' : LoopState) (i : Nat) (p : ExtractedPlay),
      sc.score_id = some i →
      ls.history.any (fun h => h.osu_score_id == i) = false →
      extractPlay sc = Except.ok p →
      processScore snapshot now ls sc = Except.ok ls' →
      ls'.rating = updateRating (modGroupOf p.raw_mods) (effOf p) ls.rating) := by
  refine ⟨fun r eff => ⟨rfl, rfl, rfl, rfl, rfl⟩, by norm_num [updateRating], ?_⟩
  intro snapshot now ls sc ls' i p hid hdup hex hps
  unfold processScore at hps
  simp only [hid, hdup, Bool.false_eq_true, if_false, hex] at hps
  cases hgl : goalLoop (pdOf p) sc.rank now snapshot ls.goals [] with
  | error e =>
    rw [hgl] at hps
    exact absurd hps (by simp)
  | ok pr =>
    obtain ⟨gs, cids⟩ := pr
    simp only [hgl] at hps
    cases hrk : sc.rank with
    | none =>
      rw [hrk] at hps
      exact absurd hps (by simp)
    | some rv =>
      simp only [hrk, Except.ok.injEq] at hps
      rw [← hps]
      rfl

/-- Witness for `rating_ema_update`: processing the concrete play `wPlay`
EMA-updates the NM bucket. -/
theorem rating_ema_update_witness :
    wOut.rating = updateRating (modGroupOf wP.raw_mods) (effOf wP) wLS.rating :=
  rating_ema_update.2.2 [] 0 wLS wPlay wOut 11 wP rfl rfl rfl rfl

/-! ## Loop-level machinery shared by the reconciliation claims -/

theorem stepGoalRow_gid (v s : Bool) (c t n : Nat) (r : GoalRow) :
    (stepGoalRow v s c t n r).gid = r.gid := by
  unfold stepGoalRow
  by_cases hv : v
  · by_cases h : t ≤ c + 1 <;> cases hca : r.completed_at <;> simp [hv, h]
  · by_cases hs : s <;> simp [hv, hs]

theorem stepGoalRow_current (v s : Bool) (c t n : Nat) (r : GoalRow) :
    (stepGoalRow v s c t n r).current = some (c + 1) ∨
    (stepGoalRow v s c t n r).current = some 0 ∨
    (stepGoalRow v s c t n r).current = r.current := by
  unfold stepGoalRow
  by_cases hv : v
  · by_cases h : t ≤ c + 1 <;> cases hca : r.completed_at <;> simp [hv, h]
  · by_cases hs : s <;> simp [hv, hs]

theorem processScore_inv {snapshot : List SnapGoal} {now : Nat} {ls : LoopState}
    {sc : RawPlay} {ls' : LoopState}
    (h : processScore snapshot now ls sc = Except.ok ls') :
    (∃ i, sc.score_id = some i ∧
      ls.history.any (fun x => x.osu_score_id == i) = true ∧ ls' = ls) ∨
    (∃ i p gs cids rv, sc.score_id = some i ∧
      ls.history.any (fun x => x.osu_score_id == i) = false ∧
      extractPlay sc = Except.ok p ∧
      goalLoop (pdOf p) sc.rank now snapshot ls.goals [] = Except.ok (gs, cids) ∧
      sc.rank = some rv ∧ ls' = commitPlay ls i p gs cids rv) := by
  unfold processScore at h
  cases hsi : sc.score_id with
  | none => rw [hsi] at h; exact absurd h (by simp)
  | some i =>
    simp only [hsi] at h
    by_cases hdup : ls.history.any (fun x => x.osu_score_id == i) = true
    · left
      refine ⟨i, rfl, hdup, ?_⟩
      rw [if_pos hdup] at h
      simpa [eq_comm] using h
    · right
      rw [if_neg hdup] at h
      cases hex : extractPlay sc with
      | error e => rw [hex] at h; exact absurd h (by simp)
      | ok p =>
        simp only [hex] at h
        cases hgl : goalLoop (pdOf p) sc.rank now snapshot ls.goals [] with
        | error e => rw [hgl] at h; exact absurd h (by simp)
        | ok pr =>
          obtain ⟨gs, cids⟩ := pr
          simp only [hgl] at h
          cases hrk : sc.rank with
          | none => rw [hrk] at h; exact absurd h (by simp)
          | some rv =>
            simp only [hrk] at h
            refine ⟨i, p, gs, cids, rv, rfl, by simpa using hdup, rfl,
              by rw [← hrk]; exact hgl, rfl, ?_⟩
            simpa [eq_comm] using h

theorem forall2_updateGoal (snapshot : List SnapGoal) (now : Nat)
    {gs0 gs : List GoalRow} (sg : SnapGoal) (v : Bool)
    (hsg : sg ∈ snapshot) (hp : sg.is_paused = false)
    (h : List.Forall₂ (evolvedFrom snapshot now) gs0 gs) :
    List.Forall₂ (evolvedFrom snapshot now) gs0
      (updateGoalById gs sg.gid
        (stepGoalRow v (sg.criteria.streak.getD false) (sg.current.getD 0)
          sg.target now)) := by
  induction h with
  | nil => exact List.Forall₂.nil
  | @cons a b l1 l2 hab htl ih =>
    unfold updateGoalById
    rw [List.map_cons]
    refine List.Forall₂.cons ?_ ih
    by_cases hg : b.gid == sg.gid
    · rw [if_pos hg]
      refine ⟨?_, ?_⟩
      · rw [stepGoalRow_gid]
        exact hab.1
      · refine Relation.ReflTransGen.tail hab.2 ?_
        refine ⟨sg, hsg, hp, ?_, v, rfl⟩
        rw [← hab.1]
        exact (Nat.beq_eq.mp (by simpa using hg)).symm
    · rw [if_neg hg]
      exact hab

theorem goalLoop_evolved (pd : PlayDerived) (rank_of_score : Option String)
    (now : Nat) (snapshot : List SnapGoal) :
    ∀ (snap' : List SnapGoal) (gs : List GoalRow) (cs : List Nat)
      (gs' : List GoalRow) (cs' : List Nat) (gs0 : List GoalRow),
      (∀ sg ∈ snap', sg ∈ snapshot) →
      goalLoop pd rank_of_score now snap' gs cs = Except.ok (gs', cs') →
      List.Forall₂ (evolvedFrom snapshot now) gs0 gs →
      List.Forall₂ (evolvedFrom snapshot now) gs0 gs' := by
  intro snap'
  induction snap' with
  | nil =>
    intro gs cs gs' cs' gs0 _ hgl hf
    unfold goalLoop at hgl
    simp only [Except.ok.injEq, Prod.mk.injEq] at hgl
    rw [← hgl.1]
    exact hf
  | cons sg rest ih =>
    intro gs cs gs' cs' gs0 hsub hgl hf
    have hsgmem : sg ∈ snapshot := hsub sg (by simp)
    have hsub' : ∀ s ∈ rest, s ∈ snapshot := fun s hs => hsub s (by simp [hs])
    unfold goalLoop at hgl
    by_cases hpz : sg.is_paused
    · rw [if_pos hpz] at hgl
      exact ih gs cs gs' cs' gs0 hsub' hgl hf
    · rw [if_neg hpz] at hgl
      by_cases hcp : criteriaPass sg.criteria pd
      · rw [if_pos hcp] at hgl
        cases hos : objectiveSuccess sg.criteria rank_of_score pd.is_fc with
        | error e => rw [hos] at hgl; exact absurd hgl (by simp)
        | ok success =>
          simp only [hos] at hgl
          by_cases hsucc : success
          · rw [if_pos hsucc] at hgl
            refine ih _ _ gs' cs' gs0 hsub' hgl ?_
            exact forall2_updateGoal snapshot now sg true hsgmem
              (by simpa using hpz) hf
          · rw [if_neg hsucc] at hgl
            by_cases hstk : sg.criteria.streak.getD false
            · rw [if_pos hstk] at hgl
              refine ih _ _ gs' cs' gs0 hsub' hgl ?_
              have : stepGoalRow false true (sg.current.getD 0) sg.target now =
                  stepGoalRow false (sg.criteria.streak.getD false)
                    (sg.current.getD 0) sg.target now := by
                rw [hstk]
              rw [this]
              exact forall2_updateGoal snapshot now sg false hsgmem
                (by simpa using hpz) hf
            · rw [if_neg hstk] at hgl
              exact ih gs cs gs' cs' gs0 hsub' hgl hf
      · rw [if_neg hcp] at hgl
        exact ih gs cs gs' cs' gs0 hsub' hgl hf

theorem forall2_mem_left {α β : Type} {R : α → β → Prop} {l1 : List α} {l2 : List β}
    (h : List.Forall₂ R l1 l2) : ∀ a ∈ l1, ∃ b ∈ l2, R a b := by
  induction h with
  | nil => intro a ha; exact absurd ha (by simp)
  | @cons x y t1 t2 hxy htl ih =>
    intro a ha
    rcases List.mem_cons.mp ha with rfl | ha
    · exact ⟨y, by simp, hxy⟩
    · obtain ⟨b, hb, hab⟩ := ih a ha
      exact ⟨b, by simp [hb], hab⟩

theorem forall2_mem_right {α β : Type} {R : α → β → Prop} {l1 : List α} {l2 : List β}
    (h : List.Forall₂ R l1 l2) : ∀ b ∈ l2, ∃ a ∈ l1, R a b := by
  induction h with
  | nil => intro b hb; exact absurd hb (by simp)
  | @cons x y t1 t2 hxy htl ih =>
    intro b hb
    rcases List.mem_cons.mp hb with rfl | hb
    · exact ⟨x, by simp, hxy⟩
    · obtain ⟨a, ha, hab⟩ := ih b hb
      exact ⟨a, by simp [ha], hab⟩

theorem snapshot_unique {st : EngineState}
    (hnd : (st.goals.map (fun g => g.gid)).Nodup)
    {r0 : GoalRow} (h0 : r0 ∈ st.goals) {sg : SnapGoal}
    (hsg : sg ∈ snapshotOf st) (hgid : sg.gid = r0.gid) : sg = toSnap r0 := by
  unfold snapshotOf at hsg
  obtain ⟨g, hgf, rfl⟩ := List.mem_map.mp hsg
  have hgmem : g ∈ st.goals := List.mem_of_mem_filter hgf
  have : g = r0 :=
    List.inj_on_of_nodup_map hnd hgmem h0 (by simpa [toSnap] using hgid)
  rw [this]

theorem evolvedFrom_paused {st : EngineState} {now : Nat}
    (hnd : (st.goals.map (fun g => g.gid)).Nodup)
    {r0 : GoalRow} (h0 : r0 ∈ st.goals) (hpz : r0.is_paused = true)
    {r : GoalRow} (he : evolvedFrom (snapshotOf st) now r0 r) : r = r0 := by
  obtain ⟨-, hrt⟩ := he
  induction hrt with
  | refl => rfl
  | @tail b c hab hbc ih =>
    obtain ⟨sg, hsg, hsgp, hsggid, v, rfl⟩ := hbc
    have := snapshot_unique hnd h0 hsg hsggid
    rw [this] at hsgp
    simp only [toSnap] at hsgp
    rw [hpz] at hsgp
    exact absurd hsgp (by simp)

theorem evolvedFrom_current {st : EngineState} {now : Nat}
    (hnd : (st.goals.map (fun g => g.gid)).Nodup)
    {r0 : GoalRow} (h0 : r0 ∈ st.goals)
    {r : GoalRow} (he : evolvedFrom (snapshotOf st) now r0 r) :
    r.current.getD 0 = r0.current.getD 0 ∨ r.current.getD 0 = 0 ∨
      r.current.getD 0 = r0.current.getD 0 + 1 := by
  obtain ⟨-, hrt⟩ := he
  induction hrt with
  | refl => exact Or.inl rfl
  | @tail b c hab hbc ih =>
    obtain ⟨sg, hsg, hsgp, hsggid, v, rfl⟩ := hbc
    have hsgeq := snapshot_unique hnd h0 hsg hsggid
    rcases stepGoalRow_current v (sg.criteria.streak.getD false)
        (sg.current.getD 0) sg.target now b with hc | hc | hc
    · rw [hc, hsgeq]
      simp [toSnap]
    · rw [hc]
      exact Or.inr (Or.inl rfl)
    · rw [hc]
      exact ih

theorem processScore_evolved {snapshot : List SnapGoal} {now : Nat}
    {ls : LoopState} {sc : RawPlay} {ls' : LoopState} {gs0 : List GoalRow}
    (h : processScore snapshot now ls sc = Except.ok ls')
    (hf : List.Forall₂ (evolvedFrom snapshot now) gs0 ls.goals) :
    List.Forall₂ (evolvedFrom snapshot now) gs0 ls'.goals := by
  rcases processScore_inv h with ⟨i, -, -, rfl⟩ | ⟨i, p, gs, cids, rv, -, -, -, hgl, -, rfl⟩
  · exact hf
  · exact goalLoop_evolved (pdOf p) sc.rank now snapshot snapshot ls.goals []
      gs cids gs0 (fun _ hs => hs) hgl hf

theorem runLoop_evolved {snapshot : List SnapGoal} {now : Nat} :
    ∀ (l : List RawPlay) (ls ls' : LoopState) (gs0 : List GoalRow),
      runLoop snapshot now ls l = Except.ok ls' →
      List.Forall₂ (evolvedFrom snapshot now) gs0 ls.goals →
      List.Forall₂ (evolvedFrom snapshot now) gs0 ls'.goals := by
  intro l
  induction l with
  | nil =>
    intro ls ls' gs0 hrun hf
    unfold runLoop at hrun
    simp only [Except.ok.injEq] at hrun
    rw [← hrun]
    exact hf
  | cons sc rest ih =>
    intro ls ls' gs0 hrun hf
    unfold runLoop at hrun
    cases hps : processScore snapshot now ls sc with
    | error e => rw [hps] at hrun; exact absurd hrun (by simp)
    | ok ls1 =>
      rw [hps] at hrun
      exact ih ls1 ls' gs0 hrun (processScore_evolved hps hf)

theorem goalLoop_contribs (pd : PlayDerived) (rank_of_score : Option String)
    (now : Nat) :
    ∀ (snap' : List SnapGoal) (gs : List GoalRow) (cs : List Nat)
      (gs' : List GoalRow) (cs' : List Nat),
      goalLoop pd rank_of_score now snap' gs cs = Except.ok (gs', cs') →
      ∀ g ∈ cs', g ∈ cs ∨ ∃ sg ∈ snap', sg.is_paused = false ∧ sg.gid = g := by
  intro snap'
  induction snap' with
  | nil =>
    intro gs cs gs' cs' hgl g hg
    unfold goalLoop at hgl
    simp only [Except.ok.injEq, Prod.mk.injEq] at hgl
    rw [← hgl.2] at hg
    exact Or.inl hg
  | cons sg rest ih =>
    intro gs cs gs' cs' hgl g hg
    unfold goalLoop at hgl
    by_cases hpz : sg.is_paused
    · rw [if_pos hpz] at hgl
      rcases ih _ _ _ _ hgl g hg with h | ⟨sg1, hs1, hp1, hg1⟩
      · exact Or.inl h
      · exact Or.inr ⟨sg1, by simp [hs1], hp1, hg1⟩
    · rw [if_neg hpz] at hgl
      by_cases hcp : criteriaPass sg.criteria pd
      · rw [if_pos hcp] at hgl
        cases hos : objectiveSuccess sg.criteria rank_of_score pd.is_fc with
        | error e => rw [hos] at hgl; exact absurd hgl (by simp)
        | ok success =>
          simp only [hos] at hgl
          by_cases hsucc : success
          · rw [if_pos hsucc] at hgl
            rcases ih _ _ _ _ hgl g hg with h | ⟨sg1, hs1, hp1, hg1⟩
            · rcases List.mem_append.mp h with h | h
              · exact Or.inl h
              · refine Or.inr ⟨sg, by simp, by simpa using hpz, ?_⟩
                have := List.mem_singleton.mp h
                rw [this]
            · exact Or.inr ⟨sg1, by simp [hs1], hp1, hg1⟩
          · rw [if_neg hsucc] at hgl
            by_cases hstk : sg.criteria.streak.getD false
            · rw [if_pos hstk] at hgl
              rcases ih _ _ _ _ hgl g hg with h | ⟨sg1, hs1, hp1, hg1⟩
              · exact Or.inl h
              · exact Or.inr ⟨sg1, by simp [hs1], hp1, hg1⟩
            · rw [if_neg hstk] at hgl
              rcases ih _ _ _ _ hgl g hg with h | ⟨sg1, hs1, hp1, hg1⟩
              · exact Or.inl h
              · exact Or.inr ⟨sg1, by simp [hs1], hp1, hg1⟩
      · rw [if_neg hcp] at hgl
        rcases ih _ _ _ _ hgl g hg with h | ⟨sg1, hs1, hp1, hg1⟩
        · exact Or.inl h
        · exact Or.inr ⟨sg1, by simp [hs1], hp1, hg1⟩

theorem processScore_contribs {snapshot : List SnapGoal} {now : Nat}
    {ls : LoopState} {sc : RawPlay} {ls' : LoopState}
    (h : processScore snapshot now ls sc = Except.ok ls') :
    ∀ c ∈ ls'.contribs, c ∈ ls.contribs ∨
      ∃ sg ∈ snapshot, sg.is_paused = false ∧ sg.gid = c.goal_id := by
  rcases processScore_inv h with ⟨i, -, -, rfl⟩ | ⟨i, p, gs, cids, rv, -, -, -, hgl, -, rfl⟩
  · intro c hc
    exact Or.inl hc
  · intro c hc
    simp only [commitPlay, List.mem_append] at hc
    rcases hc with hc | hc
    · exact Or.inl hc
    · obtain ⟨g, hgmem, rfl⟩ := List.mem_map.mp hc
      rcases goalLoop_contribs (pdOf p) sc.rank now snapshot ls.goals [] gs cids
          hgl g hgmem with h0 | ⟨sg, hs, hp, hgid⟩
      · exact absurd h0 (by simp)
      · exact Or.inr ⟨sg, hs, hp, hgid⟩

theorem runLoop_contribs {snapshot : List SnapGoal} {now : Nat} :
    ∀ (l : List RawPlay) (ls ls' : LoopState),
      runLoop snapshot now ls l = Except.ok ls' →
      ∀ c ∈ ls'.contribs, c ∈ ls.contribs ∨
        ∃ sg ∈ snapshot, sg.is_paused = false ∧ sg.gid = c.goal_id := by
  intro l
  induction l with
  | nil =>
    intro ls ls' hrun c hc
    unfold runLoop at hrun
    simp only [Except.ok.injEq] at hrun
    rw [← hrun] at hc
    exact Or.inl hc
  | cons sc rest ih =>
    intro ls ls' hrun c hc
    unfold runLoop at hrun
    cases hps : processScore snapshot now ls sc with
    | error e => rw [hps] at hrun; exact absurd hrun (by simp)
    | ok ls1 =>
      rw [hps] at hrun
      rcases ih ls1 ls' hrun c hc with h | h
      · exact processScore_contribs hps c h
      · exact Or.inr h

theorem processScore_skip {snapshot : List SnapGoal} {now : Nat} {ls : LoopState}
    {sc : RawPlay} {i : Nat} (hid : sc.score_id = some i)
    (hdup : ls.history.any (fun x => x.osu_score_id == i) = true) :
    processScore snapshot now ls sc = Except.ok ls := by
  unfold processScore
  simp only [hid]
  rw [if_pos hdup]

theorem processScore_any_mono {snapshot : List SnapGoal} {now : Nat}
    {ls : LoopState} {sc : RawPlay} {ls' : LoopState}
    (h : processScore snapshot now ls sc = Except.ok ls')
    (pq : HistoryRow → Bool) (hany : ls.history.any pq = true) :
    ls'.history.any pq = true := by
  rcases processScore_inv h with ⟨i, -, -, rfl⟩ | ⟨i, p, gs, cids, rv, -, -, -, -, -, rfl⟩
  · exact hany
  · simp only [commitPlay, List.any_append]
    rw [hany]
    rfl

theorem processScore_id_recorded {snapshot : List SnapGoal} {now : Nat}
    {ls : LoopState} {sc : RawPlay} {ls' : LoopState} {i : Nat}
    (h : processScore snapshot now ls sc = Except.ok ls')
    (hid : sc.score_id = some i) :
    ls'.history.any (fun x => x.osu_score_id == i) = true := by
  rcases processScore_inv h with ⟨j, hj, hdup, rfl⟩ |
      ⟨j, p, gs, cids, rv, hj, -, -, -, -, rfl⟩
  · rw [hid] at hj
    injection hj with hj
    rw [hj]
    exact hdup
  · rw [hid] at hj
    injection hj with hj
    subst hj
    simp [commitPlay, List.any_append]

theorem runLoop_any_mono {snapshot : List SnapGoal} {now : Nat} :
    ∀ (l : List RawPlay) (ls ls' : LoopState),
      runLoop snapshot now ls l = Except.ok ls' →
      ∀ pq : HistoryRow → Bool, ls.history.any pq = true →
        ls'.history.any pq = true := by
  intro l
  induction l with
  | nil =>
    intro ls ls' hrun pq hany
    unfold runLoop at hrun
    simp only [Except.ok.injEq] at hrun
    rw [← hrun]
    exact hany
  | cons sc rest ih =>
    intro ls ls' hrun pq hany
    unfold runLoop at hrun
    cases hps : processScore snapshot now ls sc with
    | error e => rw [hps] at hrun; exact absurd hrun (by simp)
    | ok ls1 =>
      rw [hps] at hrun
      exact ih ls1 ls' hrun pq (processScore_any_mono hps pq hany)

theorem runLoop_ids_recorded {snapshot : List SnapGoal} {now : Nat} :
    ∀ (l : List RawPlay) (ls ls' : LoopState),
      runLoop snapshot now ls l = Except.ok ls' →
      ∀ sc ∈ l, ∃ i, sc.score_id = some i ∧
        ls'.history.any (fun x => x.osu_score_id == i) = true := by
  intro l
  induction l with
  | nil =>
    intro ls ls' hrun sc hsc
    exact absurd hsc (by simp)
  | cons sc0 rest ih =>
    intro ls ls' hrun sc hsc
    unfold runLoop at hrun
    cases hps : processScore snapshot now ls sc0 with
    | error e => rw [hps] at hrun; exact absurd hrun (by simp)
    | ok ls1 =>
      rw [hps] at hrun
      rcases List.mem_cons.mp hsc with rfl | hsc
      · rcases processScore_inv hps with ⟨i, hi, hdup, rfl⟩ |
            ⟨i, p, gs, cids, rv, hi, -, -, -, -, rfl⟩
        · exact ⟨i, hi, runLoop_any_mono rest _ ls' hrun _ hdup⟩
        · refine ⟨i, hi, runLoop_any_mono rest _ ls' hrun _ ?_⟩
          simp [commitPlay, List.any_append]
      · exact ih ls1 ls' hrun sc hsc

theorem runLoop_all_skip {snapshot : List SnapGoal} {now : Nat} :
    ∀ (l : List RawPlay) (ls : LoopState),
      (∀ sc ∈ l, ∃ i, sc.score_id = some i ∧
        ls.history.any (fun x => x.osu_score_id == i) = true) →
      runLoop snapshot now ls l = Except.ok ls := by
  intro l
  induction l with
  | nil =>
    intro ls _
    rfl
  | cons sc rest ih =>
    intro ls hall
    obtain ⟨i, hi, hdup⟩ := hall sc (by simp)
    unfold runLoop
    rw [processScore_skip hi hdup]
    exact ih ls (fun s hs => hall s (by simp [hs]))

theorem reconcile_success_inv {batch : List RawPlay} {st : EngineState}
    {now : Nat} {res : ReconcileResult} {st' : EngineState}
    (h : reconcile batch st now = (res, st'))
    (hs : res.status = "success") :
    ∃ ls, runLoop (snapshotOf st) now (initLS st) batch.reverse = Except.ok ls ∧
      st' = { history := ls.history, goals := ls.goals, rating := ls.rating,
              contribs := ls.contribs } ∧
      res.updated = ls.updated := by
  unfold reconcile at h
  cases hrun : runLoop (snapshotOf st) now (initLS st) batch.reverse with
  | error e =>
    rw [hrun] at h
    simp only [Prod.mk.injEq] at h
    rw [← h.1] at hs
    exact absurd hs (by simp)
  | ok ls =>
    rw [hrun] at h
    simp only [Prod.mk.injEq] at h
    exact ⟨ls, rfl, h.2.symm, by rw [← h.1]⟩

theorem reconcile_error_state {batch : List RawPlay} {st : EngineState}
    {now : Nat} {res : ReconcileResult} {st' : EngineState}
    (h : reconcile batch st now = (res, st'))
    (hs : res.status ≠ "success") : st' = st := by
  unfold reconcile at h
  cases hrun : runLoop (snapshotOf st) now (initLS st) batch.reverse with
  | error e =>
    rw [hrun] at h
    simp only [Prod.mk.injEq] at h
    exact h.2.symm
  | ok ls =>
    rw [hrun] at h
    simp only [Prod.mk.injEq] at h
    rw [← h.1] at hs
    exact absurd rfl hs

/-! ## Claims C3, C5, C6, C7: reconciliation-loop properties -/

/-- Claim C3: the active-goal snapshot is read once before the play loop and
each goal's in-memory progress is never refreshed, so after one reconcile
invocation every initial goal row has a final row with the same id whose
stored progress is its snapshot value, 0, or snapshot value + 1 — and in
particular at most snapshot value + 1 — no matter how many plays matched. -/
theorem snapshot_progress_bound (batch : List RawPlay) (st : EngineState)
    (now : Nat) (res : ReconcileResult) (st' : EngineState)
    (hnd : (st.goals.map (fun g => g.gid)).Nodup)
    (hrec : reconcile batch st now = (res, st')) :
    ∀ r0 ∈ st.goals, ∃ r ∈ st'.goals, r.gid = r0.gid ∧
      (r.current.getD 0 = r0.current.getD 0 ∨ r.current.getD 0 = 0 ∨
        r.current.getD 0 = r0.current.getD 0 + 1) ∧
      r.current.getD 0 ≤ r0.current.getD 0 + 1 := by
  intro r0 h0
  unfold reconcile at hrec
  cases hrun : runLoop (snapshotOf st) now (initLS st) batch.reverse with
  | error e =>
    rw [hrun] at hrec
    simp only [Prod.mk.injEq] at hrec
    rw [← hrec.2]
    exact ⟨r0, h0, rfl, Or.inl rfl, by omega⟩
  | ok ls =>
    rw [hrun] at hrec
    simp only [Prod.mk.injEq] at hrec
    have hf : List.Forall₂ (evolvedFrom (snapshotOf st) now) st.goals ls.goals :=
      runLoop_evolved batch.reverse (initLS st) ls st.goals hrun
        (List.forall₂_same.mpr (fun a _ => ⟨rfl, Relation.ReflTransGen.refl⟩))
    obtain ⟨r, hr, hev⟩ := forall2_mem_left hf r0 h0
    have hcur := evolvedFrom_current hnd h0 hev
    refine ⟨r, ?_, hev.1, hcur, by omega⟩
    rw [← hrec.2]
    exact hr

theorem snapshot_progress_bound_witness :
    ∃ r ∈ (reconcile w3batch w3st 5).2.goals, r.gid = w3goal.gid ∧
      (r.current.getD 0 = w3goal.current.getD 0 ∨ r.current.getD 0 = 0 ∨
        r.current.getD 0 = w3goal.current.getD 0 + 1) ∧
      r.current.getD 0 ≤ w3goal.current.getD 0 + 1 :=
  snapshot_progress_bound w3batch w3st 5 (reconcile w3batch w3st 5).1
    (reconcile w3batch w3st 5).2 (by decide) rfl w3goal (by decide)

/-- Claim C5: a play whose external score id is already in `score_history`
is skipped entirely — the loop state (history, goals, rating,
contributions, feed, updated flag) is returned unchanged — and reconciling
the same batch a second time after a successful run changes no state and
reports `updated = false`. -/
theorem reconcile_idempotent :
    (∀ (snapshot : List SnapGoal) (now : Nat) (ls : LoopState) (sc : RawPlay)
       (i : Nat),
      sc.score_id = some i →
      ls.history.any (fun x => x.osu_score_id == i) = true →
      processScore snapshot now ls sc = Except.ok ls) ∧
    (∀ (batch : List RawPlay) (st : EngineState) (now now' : Nat)
       (res : ReconcileResult) (st1 : EngineState),
      reconcile batch st now = (res, st1) → res.status = "success" →
      (reconcile batch st1 now').1.updated = false ∧
      (reconcile batch st1 now').2 = st1) := by
  constructor
  · intro snapshot now ls sc i hid hdup
    exact processScore_skip hid hdup
  · intro batch st now now' res st1 hrec hs
    obtain ⟨ls, hrun, hst1, -⟩ := reconcile_success_inv hrec hs
    have hids := runLoop_ids_recorded batch.reverse (initLS st) ls hrun
    have hall : ∀ sc ∈ batch.reverse, ∃ i, sc.score_id = some i ∧
        (initLS st1).history.any (fun x => x.osu_score_id == i) = true := by
      intro sc hsc
      obtain ⟨i, hi, hin⟩ := hids sc hsc
      refine ⟨i, hi, ?_⟩
      rw [hst1]
      exact hin
    have hrun2 : runLoop (snapshotOf st1) now' (initLS st1) batch.reverse =
        Except.ok (initLS st1) :=
      runLoop_all_skip batch.reverse (initLS st1) hall
    unfold reconcile
    rw [hrun2]
    exact ⟨rfl, rfl⟩

theorem reconcile_idempotent_witness :
    (reconcile w5batch (reconcile w5batch w5st 0).2 3).1.updated = false ∧
    (reconcile w5batch (reconcile w5batch w5st 0).2 3).2 =
      (reconcile w5batch w5st 0).2 :=
  reconcile_idempotent.2 w5batch w5st 0 3 (reconcile w5batch w5st 0).1
    (reconcile w5batch w5st 0).2 rfl (by decide)

/-- Claim C6 evaluated on the code: a batch holding one well-formed play and
one play missing the required `beatmap` field makes the whole
reconciliation return an error with the state unchanged — the well-formed
play is NOT processed — whereas the well-formed play alone is processed
(the claim says the malformed record alone should be skipped). -/
theorem malformed_record_aborts_batch :
    (reconcile [w6good, w6bad] w6st 0).1.status = "error" ∧
    (reconcile [w6good, w6bad] w6st 0).2 = w6st ∧
    (reconcile [w6good] w6st 0).1.status = "success" ∧
    (reconcile [w6good] w6st 0).1.updated = true := by
  decide

/-- Claim C7: a paused goal's row survives reconciliation untouched (same
progress, completed flag, completion time — in particular a paused streak
goal is never reset to 0), no other row takes its id, and no new
contribution links cite it. -/
theorem paused_goals_untouched (batch : List RawPlay) (st : EngineState)
    (now : Nat) (res : ReconcileResult) (st' : EngineState)
    (hnd : (st.goals.map (fun g => g.gid)).Nodup)
    (hrec : reconcile batch st now = (res, st')) :
    ∀ r0 ∈ st.goals, r0.is_paused = true →
      (∃ r ∈ st'.goals, r = r0) ∧
      (∀ r ∈ st'.goals, r.gid = r0.gid → r = r0) ∧
      (∀ c ∈ st'.contribs, c.goal_id = r0.gid → c ∈ st.contribs) := by
  intro r0 h0 hpz
  unfold reconcile at hrec
  cases hrun : runLoop (snapshotOf st) now (initLS st) batch.reverse with
  | error e =>
    rw [hrun] at hrec
    simp only [Prod.mk.injEq] at hrec
    rw [← hrec.2]
    refine ⟨⟨r0, h0, rfl⟩, ?_, ?_⟩
    · intro r hr hgid
      exact List.inj_on_of_nodup_map hnd hr h0 hgid
    · intro c hc _
      exact hc
  | ok ls =>
    rw [hrun] at hrec
    simp only [Prod.mk.injEq] at hrec
    have hgoals : st'.goals = ls.goals := by rw [← hrec.2]
    have hcontribs : st'.contribs = ls.contribs := by rw [← hrec.2]
    have hf : List.Forall₂ (evolvedFrom (snapshotOf st) now) st.goals ls.goals :=
      runLoop_evolved batch.reverse (initLS st) ls st.goals hrun
        (List.forall₂_same.mpr (fun a _ => ⟨rfl, Relation.ReflTransGen.refl⟩))
    refine ⟨?_, ?_, ?_⟩
    · obtain ⟨r, hr, hev⟩ := forall2_mem_left hf r0 h0
      refine ⟨r, ?_, evolvedFrom_paused hnd h0 hpz hev⟩
      rw [hgoals]
      exact hr
    · intro r hr hgid
      rw [hgoals] at hr
      obtain ⟨a, ha, hev⟩ := forall2_mem_right hf r hr
      have hagid : a.gid = r0.gid := by rw [← hev.1, hgid]
      have : a = r0 := List.inj_on_of_nodup_map hnd ha h0 hagid
      rw [this] at hev
      exact evolvedFrom_paused hnd h0 hpz hev
    · intro c hc hcid
      rw [hcontribs] at hc
      rcases runLoop_contribs batch.reverse (initLS st) ls hrun c hc with h | h
      · exact h
      · obtain ⟨sg, hsg, hsgp, hsgid⟩ := h
        have := snapshot_unique hnd h0 hsg (by rw [hsgid, hcid])
        rw [this] at hsgp
        simp only [toSnap] at hsgp
        rw [hpz] at hsgp
        exact absurd hsgp (by simp)

theorem paused_goals_untouched_witness :
    (∃ r ∈ (reconcile w7batch w7st 0).2.goals, r = w7goal) ∧
    (∀ r ∈ (reconcile w7batch w7st 0).2.goals, r.gid = w7goal.gid → r = w7goal) ∧
    (∀ c ∈ (reconcile w7batch w7st 0).2.contribs,
      c.goal_id = w7goal.gid → c ∈ w7st.contribs) :=
  paused_goals_untouched w7batch w7st 0 (reconcile w7batch w7st 0).1
    (reconcile w7batch w7st 0).2 (by decide) rfl w7goal (by decide) (by decide)

end OsuProgress
